import Mathlib

/-!
Shallow embedding of the zillow-search-scraper extraction pipeline.

The Python sources embedded here:
  src/extractors/zillow_parser.py  (ZillowParser, PropertyListing)
  src/extractors/utils_geo.py      (haversine_distance_km, compute_centroid)
  src/outputs/exporter_json.py     (_export_json, export_records metadata flow)
  src/outputs/exporter_csv.py      (_collect_fieldnames, export_to_csv)
  src/main.py                      (run: metadata construction)

JSON values are modelled by the inductive `Json`; Python dictionaries by
association lists `List (String × Json)` (the parsed raw objects carry no
duplicate keys).  Python operations that can raise are modelled in
`Except PyErr`; `dict.get`, truthiness, `or`-chains, `str()` coercion and
`in` are modelled by dedicated functions, each mirroring the CPython
semantics actually exercised by the source.
-/

namespace ZScrape

/-- A JSON value as produced by `json.loads` (numbers restricted to the
integers; no claim in scope depends on non-integral numerics). -/
inductive Json where
  | null : Json
  | bool (b : Bool) : Json
  | num (n : Int) : Json
  | str (s : String) : Json
  | arr (elems : List Json) : Json
  | obj (fields : List (String × Json)) : Json

/-- Python truthiness of a value (`bool(x)`): `None`, `False`, `0`, `""`,
`[]`, `{}` are falsy, everything else truthy. -/
def Json.truthy : Json → Bool
  | .null => false
  | .bool b => b
  | .num n => n != 0
  | .str s => s != ""
  | .arr xs => !xs.isEmpty
  | .obj fs => !fs.isEmpty

/-- `x is a list` (`isinstance(x, list)`). -/
def Json.isArr : Json → Bool
  | .arr _ => true
  | _ => false

/-- `x is a dict` (`isinstance(x, dict)`). -/
def Json.isObj : Json → Bool
  | .obj _ => true
  | _ => false

/-- Pure dictionary lookup: `d[k]` when `d` is known to be a dict, with
`None` for a missing key (the behaviour of `dict.get(k)`). -/
def jGet (j : Json) (k : String) : Json :=
  match j with
  | .obj fs => ((fs.lookup k).getD Json.null)
  | _ => Json.null

/-- Python `a or b` on values (short-circuit on the truthiness of `a`). -/
def pyOr (a b : Json) : Json :=
  if a.truthy then a else b

/-- Exceptions the embedded Python code can raise. -/
inductive PyErr where
  | keyError : PyErr
  | typeError : PyErr
  | attributeError : PyErr
deriving Repr, DecidableEq

/-- `o.get(k)`: `dict.get` with default `None`; raises `AttributeError`
when the receiver is not a dict. -/
def pyGet (o : Json) (k : String) : Except PyErr Json :=
  match o with
  | .obj fs => .ok ((fs.lookup k).getD Json.null)
  | _ => .error .attributeError

/-- `o.get(k, d)`: `dict.get` with an explicit default; raises
`AttributeError` when the receiver is not a dict. -/
def pyGetD (o : Json) (k : String) (d : Json) : Except PyErr Json :=
  match o with
  | .obj fs => .ok ((fs.lookup k).getD d)
  | _ => .error .attributeError

/-- `o[k]` subscription with a string key: `KeyError` for a missing dict
key, `TypeError` for any non-dict receiver. -/
def pyIndex (o : Json) (k : String) : Except PyErr Json :=
  match o with
  | .obj fs =>
    match fs.lookup k with
    | some v => .ok v
    | none => .error .keyError
  | _ => .error .typeError

/-- `for x in o`: iteration order of the container; `TypeError` on a
non-iterable value. Dict iteration yields the keys. -/
def pyIterate : Json → Except PyErr (List Json)
  | .arr xs => .ok xs
  | .str s => .ok (s.data.map (fun c => Json.str (String.mk [c])))
  | .obj fs => .ok (fs.map (fun kv => Json.str kv.1))
  | _ => .error .typeError

/-- Python `or` chained behind an effectful left operand: evaluate `a`,
keep it when truthy, otherwise evaluate `b` (short-circuit). -/
def orE (a : Except PyErr Json) (b : Except PyErr Json) : Except PyErr Json := do
  let x ← a
  if x.truthy then pure x else b

/-- First-seen-order deduplication (the `seen` set / `unique` list loop at
the end of `_extract_photos`, and the `seen` set of `_collect_fieldnames`). -/
def pyDedup (l : List String) : List String :=
  go l []
where
  /-- `go pending seen` keeps the elements of `pending` not in `seen`,
  first occurrences only. -/
  go : List String → List String → List String
    | [], _ => []
    | x :: xs, seen => if x ∈ seen then go xs seen else x :: go xs (x :: seen)

/-- A single-quote character, written via its code point. -/
def sq : String := String.mk [Char.ofNat 39]

/-- Escaping used by Python string `repr` (common case: backslashes and
single quotes escaped, single-quote delimiters). -/
def reprEscape (s : String) : String :=
  (s.replace "\\" "\\\\").replace sq ("\\" ++ sq)

mutual

/-- Python `repr(x)` restricted to JSON-shaped values. -/
def pyRepr : Json → String
  | .null => "None"
  | .bool b => if b then "True" else "False"
  | .num n => toString n
  | .str s => sq ++ reprEscape s ++ sq
  | .arr xs => "[" ++ reprList xs ++ "]"
  | .obj fs => "\x7b" ++ reprFields fs ++ "\x7d"

/-- Comma-separated `repr`s of list elements. -/
def reprList : List Json → String
  | [] => ""
  | [x] => pyRepr x
  | x :: y :: xs => pyRepr x ++ ", " ++ reprList (y :: xs)

/-- Comma-separated `key: value` `repr`s of dict items. -/
def reprFields : List (String × Json) → String
  | [] => ""
  | [kv] => sq ++ reprEscape kv.1 ++ sq ++ ": " ++ pyRepr kv.2
  | kv :: kw :: fs =>
    sq ++ reprEscape kv.1 ++ sq ++ ": " ++ pyRepr kv.2 ++ ", " ++ reprFields (kw :: fs)

end

/-- Python `str(x)` restricted to JSON-shaped values: identity on strings,
`repr` otherwise. -/
def pyStr : Json → String
  | .str s => s
  | j => pyRepr j

/-- `isPrefixB n h`: `n` is a prefix of `h` (over character lists). -/
def isPrefixB : List Char → List Char → Bool
  | [], _ => true
  | _ :: _, [] => false
  | a :: as, b :: bs => a == b && isPrefixB as bs

/-- Python `s.lower()`: character-wise lowercasing. -/
def pyLower (s : String) : String :=
  String.mk (s.data.map Char.toLower)

/-- Python `needle in hay` on strings: substring containment (the empty
needle is contained in everything). -/
def substrB (needle hay : String) : Bool :=
  go needle.data hay.data
where
  /-- Check containment at every suffix of `hay`. -/
  go (n : List Char) : List Char → Bool
    | [] => isPrefixB n []
    | a :: hs => isPrefixB n (a :: hs) || go n hs

/-!  src/extractors/utils_geo.py  -/

/-- The exception raised by `compute_centroid` on empty input
(`raise ValueError(...)`); the spec refers to it as `EmptyInputError`. -/
inductive GeoError where
  | valueError (msg : String) : GeoError

/-- `compute_centroid(coords)`: accumulate `total_lat`, `total_lon` and
`count` over the iterable, raise on `count == 0`, else return the pair of
quotients.  Coordinates are modelled as rationals (exact field arithmetic
in place of IEEE doubles). -/
def compute_centroid (coords : List (ℚ × ℚ)) : Except GeoError (ℚ × ℚ) :=
  let total_lat : ℚ := coords.foldl (fun acc p => acc + p.1) 0
  let total_lon : ℚ := coords.foldl (fun acc p => acc + p.2) 0
  let count : Nat := coords.length
  if count = 0 then
    .error (.valueError "compute_centroid() requires at least one coordinate")
  else
    .ok (total_lat / count, total_lon / count)

/-- `math.radians(x) = x * pi / 180`. -/
noncomputable def radians (x : ℝ) : ℝ := x * Real.pi / 180

/-- `math.atan2(y, x)`: the two-argument arctangent, modelled by its
standard piecewise definition. -/
noncomputable def atan2 (y x : ℝ) : ℝ :=
  if 0 < x then Real.arctan (y / x)
  else if x < 0 ∧ 0 ≤ y then Real.arctan (y / x) + Real.pi
  else if x < 0 ∧ y < 0 then Real.arctan (y / x) - Real.pi
  else if x = 0 ∧ 0 < y then Real.pi / 2
  else if x = 0 ∧ y < 0 then -(Real.pi / 2)
  else 0

/-- `haversine_distance_km(lat1, lon1, lat2, lon2)`: great-circle distance
with Earth radius 6371 km, real-valued model of the float computation. -/
noncomputable def haversine_distance_km (lat1 lon1 lat2 lon2 : ℝ) : ℝ :=
  let radius_km : ℝ := 6371
  let phi1 := radians lat1
  let phi2 := radians lat2
  let d_phi := radians (lat2 - lat1)
  let d_lambda := radians (lon2 - lon1)
  let a := Real.sin (d_phi / 2) ^ 2 +
    Real.cos phi1 * Real.cos phi2 * Real.sin (d_lambda / 2) ^ 2
  let c := 2 * atan2 (Real.sqrt a) (Real.sqrt (1 - a))
  radius_km * c

/-!  src/extractors/zillow_parser.py  -/

/-- The flat record held by the `PropertyListing` dataclass.  Field values
keep their raw JSON type (the dataclass annotations are not enforced at
runtime); `photoUrls` is the string list built by `_extract_photos` and
`isFeaturedListing` the coerced boolean. -/
structure Record where
  zpid : Json
  providerListingId : Json
  statusType : Json
  statusText : Json
  imageSource : Json
  detailUrl : Json
  address : Json
  addressStreet : Json
  addressCity : Json
  addressState : Json
  addressZipcode : Json
  latitude : Json
  longitude : Json
  buildingName : Json
  contactPhoneNumber : Json
  minPrice : Json
  maxPrice : Json
  unitTypes : Json
  totalUnits : Json
  photoUrls : List String
  isFeaturedListing : Bool
  badgeText : Json

/-- `PropertyListing.to_dict`: `asdict(self)` in dataclass field order,
with `data["photoUrls"] = self.photoUrls or []`. -/
def Record.toDict (r : Record) : List (String × Json) :=
  [("zpid", r.zpid),
   ("providerListingId", r.providerListingId),
   ("statusType", r.statusType),
   ("statusText", r.statusText),
   ("imageSource", r.imageSource),
   ("detailUrl", r.detailUrl),
   ("address", r.address),
   ("addressStreet", r.addressStreet),
   ("addressCity", r.addressCity),
   ("addressState", r.addressState),
   ("addressZipcode", r.addressZipcode),
   ("latitude", r.latitude),
   ("longitude", r.longitude),
   ("buildingName", r.buildingName),
   ("contactPhoneNumber", r.contactPhoneNumber),
   ("minPrice", r.minPrice),
   ("maxPrice", r.maxPrice),
   ("unitTypes", r.unitTypes),
   ("totalUnits", r.totalUnits),
   ("photoUrls",
     Json.arr ((if r.photoUrls.isEmpty then [] else r.photoUrls).map Json.str)),
   ("isFeaturedListing", Json.bool r.isFeaturedListing),
   ("badgeText", r.badgeText)]

/-- The dict returned by `ZillowParser._format_address`. -/
structure AddressInfo where
  address : Json
  addressStreet : Json
  addressCity : Json
  addressState : Json
  addressZipcode : Json

/-- Coerce a list of values to strings, raising `TypeError` on any
non-string element (the check `str.join` performs). -/
def strListE : List Json → Except PyErr (List String)
  | [] => .ok []
  | Json.str s :: rest => (strListE rest).map (s :: ·)
  | _ :: _ => .error .typeError

/-- `", ".join(parts)`. -/
def joinComma (parts : List Json) : Except PyErr String :=
  (strListE parts).map (String.intercalate ", ")

/-- `", ".join(address_parts) if address_parts else None`
(on the truthiness-filtered component list). -/
def compose_full_address (address_parts : List Json) : Except PyErr Json :=
  if address_parts.isEmpty then pure Json.null
  else (joinComma address_parts).map Json.str

/-- `ZillowParser._format_address(raw)` (zillow_parser.py lines 172-189). -/
def format_address (raw : Json) : Except PyErr AddressInfo := do
  let addr0 ← pyGet raw "address"
  let addr := pyOr addr0 (Json.obj [])
  let street ← orE (pyGet addr "streetAddress") (pyGet raw "addressStreet")
  let city ← orE (pyGet addr "city") (pyGet raw "addressCity")
  let state ← orE (pyGet addr "state") (pyGet raw "addressState")
  let zipcode ← orE (pyGet addr "zipcode") (pyGet raw "addressZipcode")
  let address_parts := [street, city, state, zipcode].filter Json.truthy
  let full_address ← compose_full_address address_parts
  pure ⟨full_address, street, city, state, zipcode⟩

/-- Python `k in o` membership test: key test on dicts, substring test on
strings, element equality on lists, `TypeError` otherwise. -/
def keyInE (o : Json) (k : String) : Except PyErr Bool :=
  match o with
  | .obj fs => .ok (fs.any (fun kv => kv.1 == k))
  | .str s => .ok (substrB k s)
  | .arr xs => .ok (xs.any (fun j => match j with | .str t => t == k | _ => false))
  | _ => .error .typeError

/-- `[p for p in xs if isinstance(p, str)]`. -/
def strFilter (xs : List Json) : List String :=
  xs.filterMap (fun j => match j with | .str s => some s | _ => none)

/-- The `for p in hdp["photos"]` loop: `url = p.get("url")`, appended when
it is a string. -/
def photosFromObjs (ps : List Json) : Except PyErr (List String) :=
  ps.foldlM (fun acc p => do
    let url ← pyGet p "url"
    match url with
    | .str s => pure (acc ++ [s])
    | _ => pure acc) []

/-- The `if "photoUrls" in raw and isinstance(raw["photoUrls"], list)`
branch collecting the top-level string entries. -/
def photos_top (raw : Json) (kin : Bool) : Except PyErr (List String) :=
  if kin then do
    let v ← pyIndex raw "photoUrls"
    match v with
    | .arr xs => pure (strFilter xs)
    | _ => pure ([] : List String)
  else pure ([] : List String)

/-- The `isinstance(hdp, dict)` block: `hdp`-level `photoUrls` strings
followed by the `url` fields of the `photos` objects. -/
def photos_hdp (hdp : Json) : Except PyErr (List String) :=
  match hdp with
  | .obj _ => do
    let p2 := match jGet hdp "photoUrls" with | .arr xs => strFilter xs | _ => []
    let p3 ←
      match jGet hdp "photos" with
      | .arr ps => photosFromObjs ps
      | _ => pure ([] : List String)
    pure (p2 ++ p3)
  | _ => pure ([] : List String)

/-- The `photos` list of `_extract_photos` just before deduplication:
top-level `photoUrls` strings, then the two `hdpData.homeInfo` sources,
with `imgSrc` inserted at position 0 when it is a string. -/
def photoSources (raw : Json) : Except PyErr (List String) := do
  let kin ← keyInE raw "photoUrls"
  let part1 ← photos_top raw kin
  let hdp0 ← pyGetD raw "hdpData" (Json.obj [])
  let hdp ← pyGetD hdp0 "homeInfo" (Json.obj [])
  let part23 ← photos_hdp hdp
  let imgSrc ← pyGet raw "imgSrc"
  let photos := part1 ++ part23
  pure (match imgSrc with
    | .str s => s :: photos
    | _ => photos)

/-- `ZillowParser._extract_photos(raw)` (lines 191-218): collect the
merged sources, then deduplicate preserving first-seen order. -/
def extract_photos (raw : Json) : Except PyErr (List String) :=
  (photoSources raw).map pyDedup

/-- The body of `ZillowParser._iter_list_results` before its
`except (KeyError, TypeError)` handler. -/
def iter_list_results_go (state : Json) : Except PyErr (List Json) := do
  let props0 ← pyIndex state "props"
  let props ← pyIndex props0 "pageProps"
  let search_state ← orE (pyGet props "searchPageState") (pyGet props "searchState")
  let cat1 ← pyIndex search_state "cat1"
  let search_results ← pyIndex cat1 "searchResults"
  let list_results ← pyGetD search_results "listResults" (Json.arr [])
  pyIterate list_results

/-- `ZillowParser._iter_list_results(state)` (lines 156-170): `KeyError`
and `TypeError` are caught and yield no results; any other exception
(notably `AttributeError`) propagates. -/
def iter_list_results (state : Json) : Except PyErr (List Json) :=
  match iter_list_results_go state with
  | .error .keyError => .ok []
  | .error .typeError => .ok []
  | r => r

/-- `raw.get("badgeText") or (raw.get("variableData") or {}).get("text")`
given the already-fetched `badge0 = raw.get("badgeText")`. -/
def badge_text_fallback (raw : Json) (badge0 : Json) : Except PyErr Json :=
  if badge0.truthy then pure badge0
  else do
    let vd ← pyGet raw "variableData"
    pyGet (pyOr vd (Json.obj [])) "text"

/-- The per-record body of `ZillowParser.parse_search_results`
(lines 229-270), building one `PropertyListing`. -/
def normalize_raw (raw : Json) : Except PyErr Record := do
  let latLong0 ← pyGet raw "latLong"
  let lat_long := pyOr latLong0 (Json.obj [])
  let hdp0 ← pyGetD raw "hdpData" (Json.obj [])
  let hdp ← pyGetD hdp0 "homeInfo" (Json.obj [])
  let address_info ← format_address raw
  let zpid0 ← orE (orE (pyGet raw "zpid") (pyGet hdp "zpid")) (pure (Json.str ""))
  let zpid := Json.str (pyStr zpid0)
  let providerListingId ← orE (pyGet raw "providerListingId") (pyGet hdp "providerListingId")
  let statusType ← orE (pyGet raw "statusType") (pyGet hdp "homeStatus")
  let statusText ← orE (pyGet raw "statusText") (pyGet raw "statusType")
  let imageSource ← pyGet raw "imgSrc"
  let detailUrl ← orE (orE (pyGet raw "detailUrl") (pyGet raw "detailUrlPath")) (pyGet hdp "detailUrl")
  let latitude ← orE (pyGet lat_long "latitude") (pyGet hdp "latitude")
  let longitude ← orE (pyGet lat_long "longitude") (pyGet hdp "longitude")
  let buildingName ← orE (orE (pyGet raw "buildingName") (pyGet hdp "buildingName")) (pyGet raw "name")
  let contactPhoneNumber ← pyGet raw "contactPhoneNumber"
  let minPrice ← orE (orE (pyGet raw "unformattedPrice") (pyGet raw "price")) (pyGet hdp "price")
  let maxPrice ← orE (orE (pyGet raw "priceReduction") (pyGet raw "price")) (pyGet hdp "price")
  let unitTypes ← orE (orE (pyGet raw "unitTypes") (pyGet raw "bedsBaths")) (pyGet raw "beds")
  let totalUnits ← orE (pyGet raw "totalUnits") (pyGet hdp "totalUnits")
  let photoUrls ← extract_photos raw
  let isFeat0 ← pyGet raw "isFeaturedListing"
  let isFeaturedListing := isFeat0.truthy
  let badge0 ← pyGet raw "badgeText"
  let badgeText ← badge_text_fallback raw badge0
  pure {
    zpid := zpid
    providerListingId := providerListingId
    statusType := statusType
    statusText := statusText
    imageSource := imageSource
    detailUrl := detailUrl
    address := address_info.address
    addressStreet := address_info.addressStreet
    addressCity := address_info.addressCity
    addressState := address_info.addressState
    addressZipcode := address_info.addressZipcode
    latitude := latitude
    longitude := longitude
    buildingName := buildingName
    contactPhoneNumber := contactPhoneNumber
    minPrice := minPrice
    maxPrice := maxPrice
    unitTypes := unitTypes
    totalUnits := totalUnits
    photoUrls := photoUrls
    isFeaturedListing := isFeaturedListing
    badgeText := badgeText }

/-- `ZillowParser.parse_search_results(html)` (lines 220-275), taken from
the point where `_extract_json_state` has produced either a state object
or `None`: `None` yields the empty record list; otherwise each raw object
from `_iter_list_results` is normalized and serialized by `to_dict`. -/
def parse_search_results (stateOpt : Option Json) :
    Except PyErr (List (List (String × Json))) :=
  match stateOpt with
  | none => .ok []
  | some state => do
    let raws ← iter_list_results state
    let recs ← raws.mapM normalize_raw
    pure (recs.map Record.toDict)

/-- The post-parse filter of `ZillowParser.fetch_city_listings`
(lines 293-312): `if not records: return []`; a truthy `home_types` keeps
the records whose lowercased unit-type descriptor contains one of the
lowercased home types; otherwise all records are returned. -/
def filter_by_home_types (records : List (List (String × Json)))
    (home_types : Option (List String)) : List (List (String × Json)) :=
  if records.isEmpty then []
  else
    match home_types with
    | none => records
    | some hts =>
      if hts.isEmpty then records
      else
        let normalized := hts.map pyLower
        records.filter (fun r =>
          let unit_types :=
            pyLower (pyStr (pyOr ((r.lookup "unitTypes").getD Json.null) (Json.str "")))
          normalized.any (fun ht => substrB ht unit_types))

/-!  src/outputs/exporter_csv.py  -/

/-- The inner loop of `_collect_fieldnames`: fold one record's keys into
the `(fieldnames, seen)` accumulator. -/
def cfKeys : (List String × List String) → List (String × Json) → (List String × List String)
  | acc, [] => acc
  | (fns, seen), (k, _) :: rest =>
    if k ∈ seen then cfKeys (fns, seen) rest else cfKeys (fns ++ [k], k :: seen) rest

/-- `_collect_fieldnames(records)` (exporter_csv.py lines 9-17): union of
keys across records, first-seen order. -/
def collect_fieldnames (records : List (List (String × Json))) : List String :=
  (records.foldl cfKeys ([], [])).1

/-- The `seen` set after feeding the names of `l` into it (used to relate
the two first-seen loops of the source to each other). -/
def seenUpd (l : List String) (seen : List String) : List String :=
  l.foldl (fun s x => if x ∈ s then s else x :: s) seen

/-- Minimal-quoting rule of the `csv` writer: quote a field containing
the delimiter, the quote character or a line-terminator character,
doubling embedded quotes. -/
def csvQuote (s : String) : String :=
  if s.data.any (fun c => c == ',' || c == '"' || c == '\r' || c == '\n') then
    "\"" ++ s.replace "\"" "\"\"" ++ "\""
  else s

/-- `"|".join("" if v is None else str(v) for v in value)`. -/
def pipeJoin (xs : List Json) : String :=
  String.intercalate "|"
    (xs.map (fun v => match v with | Json.null => "" | v => pyStr v))

/-- The cell the CSV writer emits for column `k` of record `rec`:
list values pipe-joined, `None` and missing keys as the empty string,
anything else `str`-coerced. -/
def csvCell (rec : List (String × Json)) (k : String) : String :=
  match rec.lookup k with
  | none => ""
  | some (Json.arr xs) => pipeJoin xs
  | some Json.null => ""
  | some v => pyStr v

/-- One CSV line: comma-joined quoted cells, `\r\n`-terminated. -/
def csvLine (cells : List String) : String :=
  String.intercalate "," (cells.map csvQuote) ++ "\r\n"

/-- `export_to_csv(records, ...)` (lines 19-46) as the text written to the
output file: empty input writes an empty file; otherwise a header row of
the collected fieldnames followed by one row per record. -/
def export_to_csv (records : List (List (String × Json))) : String :=
  if records.isEmpty then ""
  else
    let fieldnames := collect_fieldnames records
    csvLine fieldnames ++
      String.join (records.map (fun rec => csvLine (fieldnames.map (csvCell rec))))

/-!  src/outputs/exporter_json.py and src/main.py  -/

/-- `_serialize_for_json(records)`: appends each record unchanged. -/
def serialize_for_json (records : List Json) : List Json :=
  records

/-- `dict.setdefault(k, v)`: insert only when the key is absent. -/
def setdefaultKV (m : List (String × Json)) (k : String) (v : Json) :
    List (String × Json) :=
  if (m.lookup k).isSome then m else m ++ [(k, v)]

/-- `_export_json(records, path, metadata)` (exporter_json.py lines
19-26) as the object written to the file. -/
def export_json_obj (records : List Json) (metadata : List (String × Json)) : Json :=
  Json.obj [("metadata", Json.obj metadata),
            ("results", Json.arr (serialize_for_json records))]

/-- `export_records(records, "json", path, metadata)` (lines 200-227):
`metadata = metadata or {}` then `setdefault("generatedAt", now)`, then
the JSON branch. `now` stands for the generation timestamp. -/
def export_records_json (records : List Json)
    (metadata : Option (List (String × Json))) (now : String) : Json :=
  let md0 := metadata.getD []
  let md := setdefaultKV md0 "generatedAt" (Json.str now)
  export_json_obj records md

/-- The metadata dict built by `run` (main.py lines 117-122). -/
def run_metadata (now : String) (cities : List String)
    (listing_types : List String) (all_records : List Json) :
    List (String × Json) :=
  [("generatedAt", Json.str now),
   ("cityCount", Json.num cities.length),
   ("listingTypes", Json.arr (listing_types.map Json.str)),
   ("recordCount", Json.num all_records.length)]

/-- Spec-side definition (for refinement comparison only): the value of
the first candidate whose value is non-null, null when there is none —
the reading "the first non-null candidate wins" of the precedence rule. -/
def specFirstNonNull : List Json → Json
  | [] => Json.null
  | Json.null :: rest => specFirstNonNull rest
  | v :: _ => v

/-- A pure chained Python `or` over a candidate list: the first truthy
candidate, or the last candidate when none is truthy. -/
def coalesce : List Json → Json
  | [] => Json.null
  | [x] => x
  | x :: y :: rest => if x.truthy then x else coalesce (y :: rest)

/-- Pure variant of `dict.get(k, d)` for receivers already known to be
dicts (returns the default on a non-dict, a case unreachable on the
success paths it is used to describe). -/
def jGetD (j : Json) (k : String) (d : Json) : Json :=
  match j with
  | .obj fs => (fs.lookup k).getD d
  | _ => d

/-- The `hdpData.homeInfo` sub-object a successful normalization reads
(`raw.get("hdpData", {}).get("homeInfo", {})`). -/
def hdp_of (raw : Json) : Json :=
  jGetD (jGetD raw "hdpData" (Json.obj [])) "homeInfo" (Json.obj [])

/-- `lat_long = raw.get("latLong") or {}`. -/
def lat_long_of (raw : Json) : Json :=
  pyOr (jGet raw "latLong") (Json.obj [])

/-- `addr = raw.get("address") or {}`. -/
def addr_of (raw : Json) : Json :=
  pyOr (jGet raw "address") (Json.obj [])

/-- `raw.get("variableData") or {}`. -/
def variable_data_of (raw : Json) : Json :=
  pyOr (jGet raw "variableData") (Json.obj [])

/-! Concrete inputs used by counterexamples and witnesses. -/

/-- A raw listing whose top-level `statusType` is the non-null empty
string while `hdpData.homeInfo.homeStatus` is `"SOLD"`. -/
def exRawStatus : Json :=
  Json.obj [("statusType", Json.str ""),
            ("hdpData", Json.obj [("homeInfo", Json.obj [("homeStatus", Json.str "SOLD")])])]

/-- The record `normalize_raw` produces for `exRawStatus`. -/
def exRecStatus : Record :=
  { zpid := Json.str ""
    providerListingId := Json.null
    statusType := Json.str "SOLD"
    statusText := Json.str ""
    imageSource := Json.null
    detailUrl := Json.null
    address := Json.null
    addressStreet := Json.null
    addressCity := Json.null
    addressState := Json.null
    addressZipcode := Json.null
    latitude := Json.null
    longitude := Json.null
    buildingName := Json.null
    contactPhoneNumber := Json.null
    minPrice := Json.null
    maxPrice := Json.null
    unitTypes := Json.null
    totalUnits := Json.null
    photoUrls := []
    isFeaturedListing := false
    badgeText := Json.null }

/-- A raw listing with a non-null but empty street component and a
non-empty city component. -/
def exRawAddr : Json :=
  Json.obj [("addressStreet", Json.str ""), ("addressCity", Json.str "Austin")]

/-- A raw listing with city and state components only. -/
def exRawAddr2 : Json :=
  Json.obj [("addressCity", Json.str "Austin"), ("addressState", Json.str "TX")]

/-- The address info `_format_address` produces for `exRawAddr2`. -/
def exAddrInfo2 : AddressInfo :=
  { address := Json.str "Austin, TX"
    addressStreet := Json.null
    addressCity := Json.str "Austin"
    addressState := Json.str "TX"
    addressZipcode := Json.null }

/-- An embedded state whose `props.pageProps` is a list: `pageProps.get`
then raises `AttributeError`, which `_iter_list_results` does not catch. -/
def exStateBad : Json :=
  Json.obj [("props", Json.obj [("pageProps", Json.arr [])])]

/-- A raw listing with an `imgSrc` and two overlapping photo-list
sources. -/
def exRawPhotos : Json :=
  Json.obj [("imgSrc", Json.str "u1"),
            ("photoUrls", Json.arr [Json.str "u2", Json.str "u1"]),
            ("hdpData", Json.obj [("homeInfo",
              Json.obj [("photoUrls", Json.arr [Json.str "u2", Json.str "u3"])])])]

/-- The record `normalize_raw` produces for `exRawPhotos`. -/
def exRecPhotos : Record :=
  { zpid := Json.str ""
    providerListingId := Json.null
    statusType := Json.null
    statusText := Json.null
    imageSource := Json.str "u1"
    detailUrl := Json.null
    address := Json.null
    addressStreet := Json.null
    addressCity := Json.null
    addressState := Json.null
    addressZipcode := Json.null
    latitude := Json.null
    longitude := Json.null
    buildingName := Json.null
    contactPhoneNumber := Json.null
    minPrice := Json.null
    maxPrice := Json.null
    unitTypes := Json.null
    totalUnits := Json.null
    photoUrls := ["u1", "u2", "u3"]
    isFeaturedListing := false
    badgeText := Json.null }

/-- The record `normalize_raw` produces for the empty raw object. -/
def exRecEmpty : Record :=
  { zpid := Json.str ""
    providerListingId := Json.null
    statusType := Json.null
    statusText := Json.null
    imageSource := Json.null
    detailUrl := Json.null
    address := Json.null
    addressStreet := Json.null
    addressCity := Json.null
    addressState := Json.null
    addressZipcode := Json.null
    latitude := Json.null
    longitude := Json.null
    buildingName := Json.null
    contactPhoneNumber := Json.null
    minPrice := Json.null
    maxPrice := Json.null
    unitTypes := Json.null
    totalUnits := Json.null
    photoUrls := []
    isFeaturedListing := false
    badgeText := Json.null }

/-- A parsed record whose unit-type descriptor is `"Apartment"`. -/
def exUnitRec : List (String × Json) :=
  [("unitTypes", Json.str "Apartment")]

/-! ## Supporting lemmas -/

theorem pyDedup_go_sublist (l : List String) (seen : List String) :
    (pyDedup.go l seen).Sublist l := by
  induction l generalizing seen with
  | nil => simp [pyDedup.go]
  | cons x xs ih =>
    by_cases hx : x ∈ seen
    · simpa [pyDedup.go, hx] using List.Sublist.cons x (ih seen)
    · simpa [pyDedup.go, hx] using List.Sublist.cons₂ x (ih (x :: seen))

theorem pyDedup_sublist (l : List String) : (pyDedup l).Sublist l :=
  pyDedup_go_sublist l []

theorem pyDedup_go_not_mem_seen (l seen : List String) (x : String)
    (hx : x ∈ seen) : x ∉ pyDedup.go l seen := by
  induction l generalizing seen with
  | nil => simp [pyDedup.go]
  | cons y ys ih =>
    by_cases hy : y ∈ seen
    · simpa [pyDedup.go, hy] using ih seen hx
    · simp only [pyDedup.go, hy, if_false]
      intro hmem
      rcases List.mem_cons.mp hmem with h | h
      · exact hy (h ▸ hx)
      · exact ih (y :: seen) (List.mem_cons_of_mem y hx) h

theorem pyDedup_go_nodup (l : List String) (seen : List String) :
    (pyDedup.go l seen).Nodup := by
  induction l generalizing seen with
  | nil => simp [pyDedup.go]
  | cons x xs ih =>
    by_cases hx : x ∈ seen
    · simpa [pyDedup.go, hx] using ih seen
    · simp only [pyDedup.go, hx, if_false]
      exact List.nodup_cons.mpr
        ⟨pyDedup_go_not_mem_seen xs (x :: seen) x (List.mem_cons_self x seen),
         ih (x :: seen)⟩

theorem pyDedup_nodup (l : List String) : (pyDedup l).Nodup :=
  pyDedup_go_nodup l []

theorem pyDedup_go_mem (l seen : List String) (x : String) :
    x ∈ pyDedup.go l seen ↔ (x ∈ l ∧ x ∉ seen) := by
  induction l generalizing seen with
  | nil => simp [pyDedup.go]
  | cons y ys ih =>
    by_cases hy : y ∈ seen
    · simp only [pyDedup.go, hy, if_true, ih, List.mem_cons]
      constructor
      · rintro ⟨h1, h2⟩; exact ⟨Or.inr h1, h2⟩
      · rintro ⟨h1 | h1, h2⟩
        · exact absurd (h1 ▸ hy) h2
        · exact ⟨h1, h2⟩
    · simp only [pyDedup.go, hy, if_false, List.mem_cons, ih]
      by_cases hxy : x = y
      · subst hxy; simp [hy]
      · simp only [hxy, false_or]

theorem pyDedup_mem (l : List String) (x : String) :
    x ∈ pyDedup l ↔ x ∈ l := by
  simpa using pyDedup_go_mem l [] x

theorem pyDedup_cons_head (x : String) (l : List String) :
    (pyDedup (x :: l)).head? = some x := by
  simp [pyDedup, pyDedup.go]

theorem foldl_add_fst (c : ℚ) (l : List (ℚ × ℚ)) :
    l.foldl (fun acc p => acc + p.1) c = c + (l.map Prod.fst).sum := by
  induction l generalizing c with
  | nil => simp
  | cons x xs ih => simp [List.foldl_cons, ih, add_assoc]

theorem foldl_add_snd (c : ℚ) (l : List (ℚ × ℚ)) :
    l.foldl (fun acc p => acc + p.2) c = c + (l.map Prod.snd).sum := by
  induction l generalizing c with
  | nil => simp
  | cons x xs ih => simp [List.foldl_cons, ih, add_assoc]

theorem bind_ok {α β : Type} {e : Except PyErr α} {f : α → Except PyErr β} {b : β} :
    (e >>= f) = .ok b ↔ ∃ a, e = .ok a ∧ f a = .ok b := by
  cases e <;> simp [Bind.bind, Except.bind]

theorem pure_ok {α : Type} {a b : α} : (pure a : Except PyErr α) = .ok b ↔ a = b := by
  simp [pure, Except.pure]

theorem emap_ok {α β : Type} {e : Except PyErr α} {f : α → β} {b : β} :
    e.map f = .ok b ↔ ∃ a, e = .ok a ∧ f a = b := by
  cases e <;> simp [Except.map]

theorem pyGet_ok_val {o : Json} {k : String} {v : Json} (h : pyGet o k = .ok v) :
    v = jGet o k := by
  cases o with
  | obj fs => exact (Except.ok.inj h).symm
  | null => simp [pyGet] at h
  | bool b => simp [pyGet] at h
  | num n => simp [pyGet] at h
  | str s => simp [pyGet] at h
  | arr xs => simp [pyGet] at h

theorem pyGetD_ok_val {o : Json} {k : String} {d v : Json} (h : pyGetD o k d = .ok v) :
    v = jGetD o k d := by
  cases o with
  | obj fs => exact (Except.ok.inj h).symm
  | null => simp [pyGetD] at h
  | bool b => simp [pyGetD] at h
  | num n => simp [pyGetD] at h
  | str s => simp [pyGetD] at h
  | arr xs => simp [pyGetD] at h

theorem pyGetD_ok_obj {o : Json} {k : String} {d v : Json} (h : pyGetD o k d = .ok v) :
    o.isObj = true := by
  cases o <;> first | rfl | simp [pyGetD] at h

theorem orE_pyGet2 {o1 o2 : Json} {k1 k2 : String} {v : Json}
    (h : orE (pyGet o1 k1) (pyGet o2 k2) = .ok v) :
    v = coalesce [jGet o1 k1, jGet o2 k2] := by
  cases o1 with
  | obj fs =>
    simp only [orE, pyGet, Bind.bind, Except.bind] at h
    by_cases ht : (Json.truthy ((fs.lookup k1).getD Json.null)) = true
    · rw [if_pos ht] at h
      rw [pure_ok] at h
      simp [coalesce, jGet, ht, h.symm]
    · rw [if_neg ht] at h
      have hv := pyGet_ok_val h
      simp only [Bool.not_eq_true] at ht
      simp [coalesce, jGet, ht, hv]
  | null => simp [orE, pyGet, Bind.bind, Except.bind] at h
  | bool b => simp [orE, pyGet, Bind.bind, Except.bind] at h
  | num n => simp [orE, pyGet, Bind.bind, Except.bind] at h
  | str s => simp [orE, pyGet, Bind.bind, Except.bind] at h
  | arr xs => simp [orE, pyGet, Bind.bind, Except.bind] at h

theorem orE_ok_split {a b : Except PyErr Json} {v : Json} (h : orE a b = .ok v) :
    ∃ x, a = .ok x ∧ ((x.truthy = true ∧ v = x) ∨ (x.truthy = false ∧ b = .ok v)) := by
  cases a with
  | error e => simp [orE, Bind.bind, Except.bind] at h
  | ok x =>
    refine ⟨x, rfl, ?_⟩
    simp only [orE, Bind.bind, Except.bind] at h
    by_cases ht : x.truthy = true
    · rw [if_pos ht] at h; rw [pure_ok] at h; exact Or.inl ⟨ht, h.symm⟩
    · rw [if_neg ht] at h
      exact Or.inr ⟨Bool.not_eq_true _ |>.mp ht, h⟩

theorem coalesce3_of2 {p q r : Json} :
    coalesce [p, q, r] = if (coalesce [p, q]).truthy then coalesce [p, q] else r := by
  by_cases hp : p.truthy <;> by_cases hq : q.truthy <;> simp [coalesce, hp, hq]

theorem orE3_pyGet {o1 o2 o3 : Json} {k1 k2 k3 : String} {v : Json}
    (h : orE (orE (pyGet o1 k1) (pyGet o2 k2)) (pyGet o3 k3) = .ok v) :
    v = coalesce [jGet o1 k1, jGet o2 k2, jGet o3 k3] := by
  obtain ⟨x, hx, hcase⟩ := orE_ok_split h
  have hx2 := orE_pyGet2 hx
  subst hx2
  rcases hcase with ⟨ht, rfl⟩ | ⟨ht, hb⟩
  · rw [coalesce3_of2, if_pos ht]
  · rw [coalesce3_of2, if_neg (by simp [ht]), pyGet_ok_val hb]

theorem orE2p_pyGet {o1 o2 : Json} {k1 k2 : String} {d v : Json}
    (h : orE (orE (pyGet o1 k1) (pyGet o2 k2)) (pure d) = .ok v) :
    v = coalesce [jGet o1 k1, jGet o2 k2, d] := by
  obtain ⟨x, hx, hcase⟩ := orE_ok_split h
  have hx2 := orE_pyGet2 hx
  subst hx2
  rcases hcase with ⟨ht, rfl⟩ | ⟨ht, hb⟩
  · rw [coalesce3_of2, if_pos ht]
  · rw [coalesce3_of2, if_neg (by simp [ht])]
    exact (pure_ok.mp hb).symm

theorem badge_text_fallback_ok {raw badge0 v : Json}
    (h : badge_text_fallback raw badge0 = .ok v) :
    v = coalesce [badge0, jGet (pyOr (jGet raw "variableData") (Json.obj [])) "text"] := by
  by_cases ht : badge0.truthy = true
  · rw [badge_text_fallback, if_pos ht, pure_ok] at h
    simp [coalesce, ht, h.symm]
  · rw [badge_text_fallback, if_neg ht, bind_ok] at h
    obtain ⟨vd, hvd, htext⟩ := h
    have ev : vd = jGet raw "variableData" := pyGet_ok_val hvd
    subst ev
    rw [pyGet_ok_val htext]
    simp only [Bool.not_eq_true] at ht
    simp [coalesce, ht]

theorem normalize_raw_fields (raw : Json) (r : Record) (h : normalize_raw raw = .ok r) :
    r.zpid = Json.str (pyStr (coalesce [jGet raw "zpid", jGet (hdp_of raw) "zpid", Json.str ""]))
    ∧ r.providerListingId = coalesce [jGet raw "providerListingId", jGet (hdp_of raw) "providerListingId"]
    ∧ r.statusType = coalesce [jGet raw "statusType", jGet (hdp_of raw) "homeStatus"]
    ∧ r.statusText = coalesce [jGet raw "statusText", jGet raw "statusType"]
    ∧ r.imageSource = jGet raw "imgSrc"
    ∧ r.detailUrl = coalesce [jGet raw "detailUrl", jGet raw "detailUrlPath", jGet (hdp_of raw) "detailUrl"]
    ∧ r.latitude = coalesce [jGet (lat_long_of raw) "latitude", jGet (hdp_of raw) "latitude"]
    ∧ r.longitude = coalesce [jGet (lat_long_of raw) "longitude", jGet (hdp_of raw) "longitude"]
    ∧ r.buildingName = coalesce [jGet raw "buildingName", jGet (hdp_of raw) "buildingName", jGet raw "name"]
    ∧ r.contactPhoneNumber = jGet raw "contactPhoneNumber"
    ∧ r.minPrice = coalesce [jGet raw "unformattedPrice", jGet raw "price", jGet (hdp_of raw) "price"]
    ∧ r.maxPrice = coalesce [jGet raw "priceReduction", jGet raw "price", jGet (hdp_of raw) "price"]
    ∧ r.unitTypes = coalesce [jGet raw "unitTypes", jGet raw "bedsBaths", jGet raw "beds"]
    ∧ r.totalUnits = coalesce [jGet raw "totalUnits", jGet (hdp_of raw) "totalUnits"]
    ∧ r.badgeText = coalesce [jGet raw "badgeText", jGet (variable_data_of raw) "text"]
    ∧ r.isFeaturedListing = (jGet raw "isFeaturedListing").truthy
    ∧ format_address raw = .ok ⟨r.address, r.addressStreet, r.addressCity, r.addressState, r.addressZipcode⟩
    ∧ extract_photos raw = .ok r.photoUrls := by
  cases raw with
  | obj fs =>
    simp only [normalize_raw, bind_ok, pure_ok] at h
    obtain ⟨latLong0, hll, hdp0, hhdp0, hdp, hhdp, ainfo, haddr, zpid0, hzp,
      plid, hpl, st, hst, stx, hstx, img, himg, durl, hdurl, lat, hlat, lon, hlon,
      bn, hbn, cph, hcph, minp, hminp, maxp, hmaxp, ut, hut, tu, htu, ph, hph,
      feat, hfeat, badge0, hb0, bt, hbt, hrec⟩ := h
    subst hrec
    have e1 : latLong0 = jGet (Json.obj fs) "latLong" := pyGet_ok_val hll
    subst e1
    have e2 : hdp0 = jGetD (Json.obj fs) "hdpData" (Json.obj []) := pyGetD_ok_val hhdp0
    have e3 : hdp = hdp_of (Json.obj fs) := by
      rw [pyGetD_ok_val hhdp, e2]; rfl
    subst e3
    have eb : badge0 = jGet (Json.obj fs) "badgeText" := pyGet_ok_val hb0
    subst eb
    refine ⟨?_, ?_, ?_, ?_, ?_, ?_, ?_, ?_, ?_, ?_, ?_, ?_, ?_, ?_, ?_, ?_, ?_, ?_⟩
    · show Json.str (pyStr zpid0) = _
      rw [orE2p_pyGet hzp]
    · exact orE_pyGet2 hpl
    · exact orE_pyGet2 hst
    · exact orE_pyGet2 hstx
    · exact pyGet_ok_val himg
    · exact orE3_pyGet hdurl
    · exact orE_pyGet2 hlat
    · exact orE_pyGet2 hlon
    · exact orE3_pyGet hbn
    · exact pyGet_ok_val hcph
    · exact orE3_pyGet hminp
    · exact orE3_pyGet hmaxp
    · exact orE3_pyGet hut
    · exact orE_pyGet2 htu
    · exact badge_text_fallback_ok hbt
    · show feat.truthy = _
      rw [pyGet_ok_val hfeat]
    · exact haddr
    · exact hph
  | null => simp [normalize_raw, pyGet, Bind.bind, Except.bind] at h
  | bool b => simp [normalize_raw, pyGet, Bind.bind, Except.bind] at h
  | num n => simp [normalize_raw, pyGet, Bind.bind, Except.bind] at h
  | str s => simp [normalize_raw, pyGet, Bind.bind, Except.bind] at h
  | arr xs => simp [normalize_raw, pyGet, Bind.bind, Except.bind] at h

theorem pyIndex_ok_val {o : Json} {k : String} {v : Json} (h : pyIndex o k = .ok v) :
    jGet o k = v := by
  cases o with
  | obj fs =>
    simp only [pyIndex] at h
    cases hlk : fs.lookup k with
    | none => rw [hlk] at h; exact absurd h (by simp)
    | some w =>
      rw [hlk] at h
      simp only [jGet, hlk, Option.getD_some]
      exact Except.ok.inj h
  | null => simp [pyIndex] at h
  | bool b => simp [pyIndex] at h
  | num n => simp [pyIndex] at h
  | str s => simp [pyIndex] at h
  | arr xs => simp [pyIndex] at h

theorem strListE_map (ss : List String) : strListE (ss.map Json.str) = .ok ss := by
  induction ss with
  | nil => rfl
  | cons s rest ih => simp [strListE, ih, Except.map]

theorem compose_full_address_nil {v : Json}
    (h : compose_full_address [] = .ok v) : v = Json.null := by
  simpa [compose_full_address, pure_ok] using (pure_ok.mp h).symm

theorem compose_full_address_strs {parts : List Json} {v : Json} (ss : List String)
    (hss : parts = ss.map Json.str) (hne : ss ≠ [])
    (h : compose_full_address parts = .ok v) :
    v = Json.str (String.intercalate ", " ss) := by
  subst hss
  have hpe : (ss.map Json.str).isEmpty = false := by
    cases ss with
    | nil => exact absurd rfl hne
    | cons a l => rfl
  rw [compose_full_address, hpe] at h
  simp only [Bool.false_eq_true, if_false, joinComma, strListE_map, Except.map] at h
  exact (Except.ok.inj h).symm

theorem format_address_ok {raw : Json} {info : AddressInfo}
    (h : format_address raw = .ok info) :
    info.addressStreet = coalesce [jGet (addr_of raw) "streetAddress", jGet raw "addressStreet"]
    ∧ info.addressCity = coalesce [jGet (addr_of raw) "city", jGet raw "addressCity"]
    ∧ info.addressState = coalesce [jGet (addr_of raw) "state", jGet raw "addressState"]
    ∧ info.addressZipcode = coalesce [jGet (addr_of raw) "zipcode", jGet raw "addressZipcode"]
    ∧ compose_full_address
        ([info.addressStreet, info.addressCity, info.addressState,
          info.addressZipcode].filter Json.truthy) = .ok info.address := by
  cases raw with
  | obj fs =>
    simp only [format_address, bind_ok, pure_ok] at h
    obtain ⟨addr0, ha0, street, hstreet, city, hcity, state, hstate,
      zipcode, hzip, full, hfull, hinfo⟩ := h
    have e0 : addr0 = jGet (Json.obj fs) "address" := pyGet_ok_val ha0
    subst e0
    subst hinfo
    exact ⟨orE_pyGet2 hstreet, orE_pyGet2 hcity, orE_pyGet2 hstate,
      orE_pyGet2 hzip, hfull⟩
  | null => simp [format_address, pyGet, Bind.bind, Except.bind] at h
  | bool b => simp [format_address, pyGet, Bind.bind, Except.bind] at h
  | num n => simp [format_address, pyGet, Bind.bind, Except.bind] at h
  | str s => simp [format_address, pyGet, Bind.bind, Except.bind] at h
  | arr xs => simp [format_address, pyGet, Bind.bind, Except.bind] at h

theorem extract_photos_ok_dedup {raw : Json} {ps l : List String}
    (hps : photoSources raw = .ok ps) (h : extract_photos raw = .ok l) :
    l = pyDedup ps := by
  rw [extract_photos, hps] at h
  simp only [Except.map] at h
  exact (Except.ok.inj h).symm

theorem photoSources_imgSrc_cons {raw : Json} {ps : List String} {s : String}
    (hps : photoSources raw = .ok ps) (himg : jGet raw "imgSrc" = Json.str s) :
    ∃ rest, ps = s :: rest := by
  simp only [photoSources, bind_ok, pure_ok] at hps
  obtain ⟨kin, hkin, p1, hp1, hdp0, hhdp0, hdp, hhdp, p23, hp23, img, himgv, hfin⟩ := hps
  have e : img = jGet raw "imgSrc" := pyGet_ok_val himgv
  rw [himg] at e
  subst e
  exact ⟨p1 ++ p23, hfin.symm⟩

theorem photos_top_null {raw : Json} {kin : Bool} {p1 : List String}
    (hnull : jGet raw "photoUrls" = Json.null) (h : photos_top raw kin = .ok p1) :
    p1 = [] := by
  cases kin with
  | false => exact (pure_ok.mp h).symm
  | true =>
    simp only [photos_top, if_true, bind_ok] at h
    obtain ⟨v, hv, hrest⟩ := h
    have e := pyIndex_ok_val hv
    rw [hnull] at e
    subst e
    exact (pure_ok.mp hrest).symm

theorem photos_hdp_null {hdp : Json} {p23 : List String}
    (h1 : jGet hdp "photoUrls" = Json.null) (h2 : jGet hdp "photos" = Json.null)
    (h : photos_hdp hdp = .ok p23) : p23 = [] := by
  cases hdp with
  | obj fs =>
    simp only [photos_hdp, h1, h2, bind_ok, pure_ok] at h
    obtain ⟨p3, hp3, hfin⟩ := h
    rw [← hp3] at hfin
    simpa using hfin.symm
  | null => exact (pure_ok.mp h).symm
  | bool b => exact (pure_ok.mp h).symm
  | num n => exact (pure_ok.mp h).symm
  | str s => exact (pure_ok.mp h).symm
  | arr xs => exact (pure_ok.mp h).symm

theorem photoSources_null {raw : Json} {ps : List String}
    (h1 : jGet raw "photoUrls" = Json.null)
    (h2 : jGet (hdp_of raw) "photoUrls" = Json.null)
    (h3 : jGet (hdp_of raw) "photos" = Json.null)
    (h4 : jGet raw "imgSrc" = Json.null)
    (hps : photoSources raw = .ok ps) : ps = [] := by
  simp only [photoSources, bind_ok, pure_ok] at hps
  obtain ⟨kin, hkin, p1, hp1, hdp0, hhdp0, hdp, hhdp, p23, hp23, img, himgv, hfin⟩ := hps
  have ehdp : hdp = hdp_of raw := by
    rw [pyGetD_ok_val hhdp, pyGetD_ok_val hhdp0]; rfl
  subst ehdp
  have ep1 : p1 = [] := photos_top_null h1 hp1
  have ep23 : p23 = [] := photos_hdp_null h2 h3 hp23
  subst ep1; subst ep23
  have e : img = jGet raw "imgSrc" := pyGet_ok_val himgv
  rw [h4] at e
  subst e
  simpa using hfin.symm

theorem pyDedup_go_append (l m seen : List String) :
    pyDedup.go (l ++ m) seen = pyDedup.go l seen ++ pyDedup.go m (seenUpd l seen) := by
  induction l generalizing seen with
  | nil => simp [pyDedup.go, seenUpd]
  | cons x xs ih =>
    by_cases hx : x ∈ seen
    · simp [pyDedup.go, hx, ih, seenUpd]
    · simp [pyDedup.go, hx, ih, seenUpd]

theorem cfKeys_eq (rec : List (String × Json)) (fns seen : List String) :
    cfKeys (fns, seen) rec =
      (fns ++ pyDedup.go (rec.map Prod.fst) seen, seenUpd (rec.map Prod.fst) seen) := by
  induction rec generalizing fns seen with
  | nil => simp [cfKeys, pyDedup.go, seenUpd]
  | cons kv rest ih =>
    obtain ⟨k, v⟩ := kv
    by_cases hk : k ∈ seen
    · simp [cfKeys, hk, ih, pyDedup.go, seenUpd]
    · simp [cfKeys, hk, ih, pyDedup.go, seenUpd]

theorem collect_foldl (records : List (List (String × Json))) (fns seen : List String) :
    records.foldl cfKeys (fns, seen) =
      (fns ++ pyDedup.go ((records.map (fun r => r.map Prod.fst)).flatten) seen,
       seenUpd ((records.map (fun r => r.map Prod.fst)).flatten) seen) := by
  induction records generalizing fns seen with
  | nil => simp [pyDedup.go, seenUpd]
  | cons rec rest ih =>
    have hseen : ∀ (l m s : List String), seenUpd (l ++ m) s = seenUpd m (seenUpd l s) := by
      intro l m s
      simp [seenUpd, List.foldl_append]
    simp only [List.foldl_cons, cfKeys_eq, ih, List.map_cons, List.flatten_cons,
      pyDedup_go_append, List.append_assoc, hseen]

theorem collect_fieldnames_eq (records : List (List (String × Json))) :
    collect_fieldnames records =
      pyDedup ((records.map (fun r => r.map Prod.fst)).flatten) := by
  rw [collect_fieldnames, collect_foldl]
  simp [pyDedup]

theorem isPrefixB_iff (n h : List Char) : isPrefixB n h = true ↔ n <+: h := by
  induction n generalizing h with
  | nil => simp [isPrefixB, List.nil_prefix]
  | cons a as ih =>
    cases h with
    | nil => simp [isPrefixB]
    | cons b bs => simp [isPrefixB, List.cons_prefix_cons, ih, And.comm]

theorem substrB_go_iff (n h : List Char) :
    substrB.go n h = true ↔ ∃ t, n <+: t ∧ t <:+ h := by
  induction h with
  | nil =>
    simp only [substrB.go, isPrefixB_iff]
    constructor
    · intro hp; exact ⟨[], hp, List.suffix_refl []⟩
    · rintro ⟨t, hpre, hsuf⟩
      rw [List.suffix_nil.mp hsuf] at hpre
      exact hpre
  | cons a hs ih =>
    simp only [substrB.go, Bool.or_eq_true, isPrefixB_iff, ih]
    constructor
    · rintro (hp | ⟨t, hpre, hsuf⟩)
      · exact ⟨a :: hs, hp, List.suffix_refl _⟩
      · exact ⟨t, hpre, hsuf.trans (List.suffix_cons a hs)⟩
    · rintro ⟨t, hpre, hsuf⟩
      rcases List.suffix_cons_iff.mp hsuf with rfl | hsuf2
      · exact Or.inl hpre
      · exact Or.inr ⟨t, hpre, hsuf2⟩

theorem substrB_iff (n h : String) :
    substrB n h = true ↔ n.data <:+: h.data := by
  rw [substrB, substrB_go_iff, List.infix_iff_prefix_suffix]

/-! ## Claim theorems -/

/-- C4: when no embedded JSON state is located, `parse_search_results`
returns the empty list without raising; but the claim that extraction
anomalies never escape as exceptions fails: a state whose
`props.pageProps` is a list makes `pageProps.get(...)` raise an
`AttributeError` that `_iter_list_results` does not catch. -/
theorem parse_degradation_status :
    parse_search_results none = .ok []
    ∧ iter_list_results_go exStateBad = .error .attributeError
    ∧ parse_search_results (some exStateBad) = .error .attributeError :=
  ⟨rfl, rfl, rfl⟩

/-- C6: `compute_centroid` fails on the empty list with the empty-input
error, returns a singleton input exactly, and in general returns the
arithmetic mean of latitudes and longitudes. -/
theorem compute_centroid_spec :
    compute_centroid [] =
      .error (.valueError "compute_centroid() requires at least one coordinate")
    ∧ (∀ p : ℚ × ℚ, compute_centroid [p] = .ok p)
    ∧ ∀ coords : List (ℚ × ℚ), coords ≠ [] →
        compute_centroid coords =
          .ok ((coords.map Prod.fst).sum / coords.length,
               (coords.map Prod.snd).sum / coords.length) := by
  refine ⟨rfl, ?_, ?_⟩
  · intro p
    simp [compute_centroid]
  · intro coords hne
    have hlen : coords.length ≠ 0 := by simpa [List.length_eq_zero] using hne
    simp [compute_centroid, hlen, foldl_add_fst, foldl_add_snd]

/-- Witness for C6 at a concrete two-point input. -/
theorem compute_centroid_spec_witness :
    compute_centroid [((1 : ℚ), (2 : ℚ)), ((3 : ℚ), (4 : ℚ))] = .ok ((2 : ℚ), (3 : ℚ)) := by
  have h := compute_centroid_spec.2.2 [((1 : ℚ), (2 : ℚ)), ((3 : ℚ), (4 : ℚ))] (by simp)
  rw [h]
  norm_num

/-- C7: the haversine distance is symmetric in its two points. -/
theorem haversine_symm (lat1 lon1 lat2 lon2 : ℝ) :
    haversine_distance_km lat1 lon1 lat2 lon2 =
      haversine_distance_km lat2 lon2 lat1 lon1 := by
  simp only [haversine_distance_km, radians]
  have h1 : (lat1 - lat2) * Real.pi / 180 / 2 = -((lat2 - lat1) * Real.pi / 180 / 2) := by
    ring
  have h2 : (lon1 - lon2) * Real.pi / 180 / 2 = -((lon2 - lon1) * Real.pi / 180 / 2) := by
    ring
  rw [h1, h2, Real.sin_neg, Real.sin_neg]
  ring_nf

/-- C8 counterexample: `_export_json` embeds the supplied metadata
verbatim, so an arbitrary metadata dict can carry a `recordCount` (5)
different from the length of the results list (1). -/
theorem export_json_recordCount_cex :
    jGet (jGet (export_records_json [Json.obj []]
        (some [("recordCount", Json.num 5)]) "T") "metadata") "recordCount"
      = Json.num 5
    ∧ jGet (export_records_json [Json.obj []]
        (some [("recordCount", Json.num 5)]) "T") "results"
      = Json.arr [Json.obj []]
    ∧ Json.num 5 ≠ Json.num ([Json.obj []] : List Json).length := by
  refine ⟨rfl, rfl, ?_⟩
  intro hx
  rw [Json.num.injEq] at hx
  exact absurd hx (by decide)

/-- C8 (amended): when the JSON export is invoked with the metadata
`run` builds (whose `recordCount` is `len(all_records)`), the exported
object's `metadata.recordCount` equals the length of its `results`
list. -/
theorem export_json_recordCount_run (records : List Json) (now1 now2 : String)
    (cities listing_types : List String) :
    jGet (jGet (export_records_json records
        (some (run_metadata now1 cities listing_types records)) now2) "metadata")
      "recordCount" = Json.num records.length
    ∧ jGet (export_records_json records
        (some (run_metadata now1 cities listing_types records)) now2) "results"
      = Json.arr records :=
  ⟨rfl, rfl⟩

/-- C1 counterexample: with a top-level `statusType` of `""` (non-null)
and `hdpData.homeInfo.homeStatus` of `"SOLD"`, the first non-null
candidate is `""` but the normalized record holds `"SOLD"`. -/
theorem field_precedence_cex :
    normalize_raw exRawStatus = .ok exRecStatus
    ∧ jGet exRawStatus "statusType" = Json.str ""
    ∧ jGet (hdp_of exRawStatus) "homeStatus" = Json.str "SOLD"
    ∧ specFirstNonNull [jGet exRawStatus "statusType",
        jGet (hdp_of exRawStatus) "homeStatus"] = Json.str ""
    ∧ exRecStatus.statusType = Json.str "SOLD"
    ∧ Json.str "SOLD" ≠ Json.str "" := by
  refine ⟨rfl, rfl, rfl, rfl, rfl, ?_⟩
  intro hx
  rw [Json.str.injEq] at hx
  exact absurd hx (by decide)

/-- C1 (amended): every coalesced field of a normalized record equals the
chained Python `or` of its candidates — the first *truthy* candidate wins
(and with no truthy candidate the last candidate's value is kept). -/
theorem field_precedence_first_truthy (raw : Json) (r : Record)
    (h : normalize_raw raw = .ok r) :
    (∀ (x : Json) (xs : List Json), x.truthy = true → coalesce (x :: xs) = x)
    ∧ (∀ (x y : Json) (xs : List Json), x.truthy = false →
        coalesce (x :: y :: xs) = coalesce (y :: xs))
    ∧ r.zpid = Json.str (pyStr (coalesce
        [jGet raw "zpid", jGet (hdp_of raw) "zpid", Json.str ""]))
    ∧ r.providerListingId = coalesce
        [jGet raw "providerListingId", jGet (hdp_of raw) "providerListingId"]
    ∧ r.statusType = coalesce [jGet raw "statusType", jGet (hdp_of raw) "homeStatus"]
    ∧ r.statusText = coalesce [jGet raw "statusText", jGet raw "statusType"]
    ∧ r.detailUrl = coalesce
        [jGet raw "detailUrl", jGet raw "detailUrlPath", jGet (hdp_of raw) "detailUrl"]
    ∧ r.latitude = coalesce
        [jGet (lat_long_of raw) "latitude", jGet (hdp_of raw) "latitude"]
    ∧ r.longitude = coalesce
        [jGet (lat_long_of raw) "longitude", jGet (hdp_of raw) "longitude"]
    ∧ r.buildingName = coalesce
        [jGet raw "buildingName", jGet (hdp_of raw) "buildingName", jGet raw "name"]
    ∧ r.minPrice = coalesce
        [jGet raw "unformattedPrice", jGet raw "price", jGet (hdp_of raw) "price"]
    ∧ r.maxPrice = coalesce
        [jGet raw "priceReduction", jGet raw "price", jGet (hdp_of raw) "price"]
    ∧ r.unitTypes = coalesce [jGet raw "unitTypes", jGet raw "bedsBaths", jGet raw "beds"]
    ∧ r.totalUnits = coalesce [jGet raw "totalUnits", jGet (hdp_of raw) "totalUnits"]
    ∧ r.badgeText = coalesce [jGet raw "badgeText", jGet (variable_data_of raw) "text"] := by
  obtain ⟨h1, h2, h3, h4, _, h6, h7, h8, h9, _, h11, h12, h13, h14, h15, _, _, _⟩ :=
    normalize_raw_fields raw r h
  refine ⟨?_, ?_, h1, h2, h3, h4, h6, h7, h8, h9, h11, h12, h13, h14, h15⟩
  · intro x xs hx
    cases xs <;> simp [coalesce, hx]
  · intro x y xs hx
    simp [coalesce, hx]

/-- Witness for C1 (amended) at `exRawStatus`. -/
theorem field_precedence_witness :
    exRecStatus.statusType =
      coalesce [jGet exRawStatus "statusType", jGet (hdp_of exRawStatus) "homeStatus"] :=
  (field_precedence_first_truthy exRawStatus exRecStatus rfl).2.2.2.2.1

/-- C2: the `photoUrls` of a normalized record is the first-seen-order
deduplication of the merged photo sources: duplicate-free, a sublist of
the merged sequence (order preserved), same membership, and headed by the
top-level `imgSrc` whenever that is a string; in the serialized record
the field is always a JSON list, never null. -/
theorem photoUrls_dedup_order (raw : Json) (ps l : List String)
    (hps : photoSources raw = .ok ps) (h : extract_photos raw = .ok l) :
    l = pyDedup ps
    ∧ l.Nodup
    ∧ l.Sublist ps
    ∧ (∀ x : String, x ∈ l ↔ x ∈ ps)
    ∧ (∀ s : String, jGet raw "imgSrc" = Json.str s → l.head? = some s)
    ∧ (∀ rec : Record, normalize_raw raw = .ok rec → rec.photoUrls = l)
    ∧ ∀ rec : Record, (Record.toDict rec).lookup "photoUrls" =
        some (Json.arr (rec.photoUrls.map Json.str)) := by
  have hl : l = pyDedup ps := extract_photos_ok_dedup hps h
  subst hl
  refine ⟨rfl, pyDedup_nodup ps, pyDedup_sublist ps, fun x => pyDedup_mem ps x, ?_, ?_, ?_⟩
  · intro s himg
    obtain ⟨rest, hrest⟩ := photoSources_imgSrc_cons hps himg
    rw [hrest]
    exact pyDedup_cons_head s rest
  · intro rec hn
    obtain ⟨_, _, _, _, _, _, _, _, _, _, _, _, _, _, _, _, _, h18⟩ :=
      normalize_raw_fields raw rec hn
    exact Except.ok.inj (h18.symm.trans h)
  · intro rec
    show some (Json.arr ((if rec.photoUrls.isEmpty then [] else rec.photoUrls).map Json.str))
      = some (Json.arr (rec.photoUrls.map Json.str))
    cases hrp : rec.photoUrls with
    | nil => rfl
    | cons a rest => rfl

/-- Witness for C2 at `exRawPhotos` (overlapping sources, `imgSrc`
present). -/
theorem photoUrls_dedup_order_witness :
    (["u1", "u2", "u3"] : List String).Nodup
    ∧ (["u1", "u2", "u3"] : List String).head? = some "u1"
    ∧ exRecPhotos.photoUrls = ["u1", "u2", "u3"] := by
  have H := photoUrls_dedup_order exRawPhotos ["u1", "u2", "u1", "u2", "u3"]
    ["u1", "u2", "u3"] rfl rfl
  exact ⟨H.2.1, H.2.2.2.2.1 "u1" rfl, H.2.2.2.2.2.1 exRecPhotos rfl⟩

/-- C3 counterexample: with a non-null empty-string street component and
city `"Austin"`, the claimed comma-join of the non-null components would
be `", Austin"`, but the code drops the falsy empty string and produces
`"Austin"`. -/
theorem address_composite_cex :
    format_address exRawAddr =
      .ok ⟨Json.str "Austin", Json.str "", Json.str "Austin", Json.null, Json.null⟩
    ∧ Json.str "" ≠ Json.null
    ∧ String.intercalate ", " ["", "Austin"] = ", Austin"
    ∧ Json.str "Austin" ≠ Json.str ", Austin" := by
  refine ⟨rfl, by simp, rfl, ?_⟩
  intro hx
  rw [Json.str.injEq] at hx
  exact absurd hx (by decide)

/-- C3 (amended): the composite address is the comma-join of exactly the
*truthy* (non-null and non-empty) resolved components in
street→city→state→zip order, and is null when no component is truthy. -/
theorem address_composite_truthy (raw : Json) (info : AddressInfo)
    (h : format_address raw = .ok info) :
    (([info.addressStreet, info.addressCity, info.addressState,
       info.addressZipcode].filter Json.truthy) = [] → info.address = Json.null)
    ∧ ∀ ss : List String,
        ([info.addressStreet, info.addressCity, info.addressState,
          info.addressZipcode].filter Json.truthy) = ss.map Json.str → ss ≠ [] →
        info.address = Json.str (String.intercalate ", " ss) := by
  have H := (format_address_ok h).2.2.2.2
  constructor
  · intro hnil
    rw [hnil] at H
    exact compose_full_address_nil H
  · intro ss hss hne
    rw [hss] at H
    exact compose_full_address_strs ss rfl hne H

/-- Witness for C3 (amended) at `exRawAddr2` (city and state only). -/
theorem address_composite_witness : exAddrInfo2.address = Json.str "Austin, TX" := by
  have H := address_composite_truthy exRawAddr2 exAddrInfo2 rfl
  exact H.2 ["Austin", "TX"] rfl (by simp)

/-- C5 counterexample: for the empty raw object every source location of
`zpid` is absent, yet the normalized record holds the empty string, not
null. -/
theorem normalize_absent_null_cex :
    normalize_raw (Json.obj []) = .ok exRecEmpty
    ∧ exRecEmpty.zpid = Json.str ""
    ∧ Json.str "" ≠ Json.null := by
  refine ⟨rfl, rfl, by simp⟩

/-- C5 (amended): every field of a normalized record is independently
optional — when all source locations of a field are null/absent the
record holds null for it — except `zpid`, which coerces absence to the
empty string, `photoUrls`, which becomes the empty list, and the featured
flag, which coerces absence to `false`. -/
theorem normalize_absent_null (raw : Json) (r : Record)
    (h : normalize_raw raw = .ok r) :
    (jGet raw "zpid" = Json.null → jGet (hdp_of raw) "zpid" = Json.null →
      r.zpid = Json.str "")
    ∧ (jGet raw "providerListingId" = Json.null →
        jGet (hdp_of raw) "providerListingId" = Json.null →
        r.providerListingId = Json.null)
    ∧ (jGet raw "statusType" = Json.null → jGet (hdp_of raw) "homeStatus" = Json.null →
        r.statusType = Json.null)
    ∧ (jGet raw "statusText" = Json.null → jGet raw "statusType" = Json.null →
        r.statusText = Json.null)
    ∧ (jGet raw "imgSrc" = Json.null → r.imageSource = Json.null)
    ∧ (jGet raw "detailUrl" = Json.null → jGet raw "detailUrlPath" = Json.null →
        jGet (hdp_of raw) "detailUrl" = Json.null → r.detailUrl = Json.null)
    ∧ (jGet (lat_long_of raw) "latitude" = Json.null →
        jGet (hdp_of raw) "latitude" = Json.null → r.latitude = Json.null)
    ∧ (jGet (lat_long_of raw) "longitude" = Json.null →
        jGet (hdp_of raw) "longitude" = Json.null → r.longitude = Json.null)
    ∧ (jGet raw "buildingName" = Json.null →
        jGet (hdp_of raw) "buildingName" = Json.null →
        jGet raw "name" = Json.null → r.buildingName = Json.null)
    ∧ (jGet raw "contactPhoneNumber" = Json.null → r.contactPhoneNumber = Json.null)
    ∧ (jGet raw "unformattedPrice" = Json.null → jGet raw "price" = Json.null →
        jGet (hdp_of raw) "price" = Json.null → r.minPrice = Json.null)
    ∧ (jGet raw "priceReduction" = Json.null → jGet raw "price" = Json.null →
        jGet (hdp_of raw) "price" = Json.null → r.maxPrice = Json.null)
    ∧ (jGet raw "unitTypes" = Json.null → jGet raw "bedsBaths" = Json.null →
        jGet raw "beds" = Json.null → r.unitTypes = Json.null)
    ∧ (jGet raw "totalUnits" = Json.null → jGet (hdp_of raw) "totalUnits" = Json.null →
        r.totalUnits = Json.null)
    ∧ (jGet raw "badgeText" = Json.null → jGet (variable_data_of raw) "text" = Json.null →
        r.badgeText = Json.null)
    ∧ (jGet (addr_of raw) "streetAddress" = Json.null →
        jGet raw "addressStreet" = Json.null → r.addressStreet = Json.null)
    ∧ (jGet (addr_of raw) "city" = Json.null →
        jGet raw "addressCity" = Json.null → r.addressCity = Json.null)
    ∧ (jGet (addr_of raw) "state" = Json.null →
        jGet raw "addressState" = Json.null → r.addressState = Json.null)
    ∧ (jGet (addr_of raw) "zipcode" = Json.null →
        jGet raw "addressZipcode" = Json.null → r.addressZipcode = Json.null)
    ∧ (r.addressStreet = Json.null → r.addressCity = Json.null →
        r.addressState = Json.null → r.addressZipcode = Json.null →
        r.address = Json.null)
    ∧ (jGet raw "photoUrls" = Json.null → jGet (hdp_of raw) "photoUrls" = Json.null →
        jGet (hdp_of raw) "photos" = Json.null → jGet raw "imgSrc" = Json.null →
        r.photoUrls = [])
    ∧ (jGet raw "isFeaturedListing" = Json.null → r.isFeaturedListing = false) := by
  obtain ⟨f1, f2, f3, f4, f5, f6, f7, f8, f9, f10, f11, f12, f13, f14, f15, f16, f17, f18⟩ :=
    normalize_raw_fields raw r h
  have FA := format_address_ok f17
  have FA1 : r.addressStreet =
      coalesce [jGet (addr_of raw) "streetAddress", jGet raw "addressStreet"] := FA.1
  have FA2 : r.addressCity =
      coalesce [jGet (addr_of raw) "city", jGet raw "addressCity"] := FA.2.1
  have FA3 : r.addressState =
      coalesce [jGet (addr_of raw) "state", jGet raw "addressState"] := FA.2.2.1
  have FA4 : r.addressZipcode =
      coalesce [jGet (addr_of raw) "zipcode", jGet raw "addressZipcode"] := FA.2.2.2.1
  have FA5 : compose_full_address
      ([r.addressStreet, r.addressCity, r.addressState,
        r.addressZipcode].filter Json.truthy) = .ok r.address := FA.2.2.2.2
  refine ⟨?_, ?_, ?_, ?_, ?_, ?_, ?_, ?_, ?_, ?_, ?_, ?_, ?_, ?_, ?_, ?_, ?_, ?_, ?_,
    ?_, ?_, ?_⟩
  · intro a b; rw [f1, a, b]; rfl
  · intro a b; rw [f2, a, b]; rfl
  · intro a b; rw [f3, a, b]; rfl
  · intro a b; rw [f4, a, b]; rfl
  · intro a; rw [f5, a]
  · intro a b c; rw [f6, a, b, c]; rfl
  · intro a b; rw [f7, a, b]; rfl
  · intro a b; rw [f8, a, b]; rfl
  · intro a b c; rw [f9, a, b, c]; rfl
  · intro a; rw [f10, a]
  · intro a b c; rw [f11, a, b, c]; rfl
  · intro a b c; rw [f12, a, b, c]; rfl
  · intro a b c; rw [f13, a, b, c]; rfl
  · intro a b; rw [f14, a, b]; rfl
  · intro a b; rw [f15, a, b]; rfl
  · intro a b; rw [FA1, a, b]; rfl
  · intro a b; rw [FA2, a, b]; rfl
  · intro a b; rw [FA3, a, b]; rfl
  · intro a b; rw [FA4, a, b]; rfl
  · intro a b c d
    rw [a, b, c, d] at FA5
    exact compose_full_address_nil FA5
  · intro a b c d
    obtain ⟨ps, hps, hdd⟩ := emap_ok.mp f18
    have hempty : ps = [] := photoSources_null a b c d hps
    subst hempty
    exact hdd.symm
  · intro a; rw [f16, a]; rfl

/-- Witness for C5 (amended) at the empty raw object. -/
theorem normalize_absent_null_witness :
    exRecEmpty.zpid = Json.str ""
    ∧ exRecEmpty.providerListingId = Json.null
    ∧ exRecEmpty.address = Json.null
    ∧ exRecEmpty.photoUrls = ([] : List String)
    ∧ exRecEmpty.isFeaturedListing = false := by
  obtain ⟨c1, c2, _, _, _, _, _, _, _, _, _, _, _, _, _, _, _, _, _, c20, c21, c22⟩ :=
    normalize_absent_null (Json.obj []) exRecEmpty rfl
  exact ⟨c1 rfl rfl, c2 rfl rfl, c20 rfl rfl rfl rfl, c21 rfl rfl rfl rfl, c22 rfl⟩

/-- C9: CSV export writes a header that is the union of record keys in
first-seen order (duplicate-free), then one row per record in which list
values are pipe-joined and null becomes the empty string; in particular
the record set with `a="1"` and `b=["x","y"]` yields header `a,b` and row
`1,x|y`. -/
theorem export_to_csv_spec :
    export_to_csv [[("a", Json.str "1"), ("b", Json.arr [Json.str "x", Json.str "y"])]]
      = "a,b\r\n1,x|y\r\n"
    ∧ export_to_csv [[("a", Json.null), ("b", Json.str "v")]] = "a,b\r\n,v\r\n"
    ∧ (∀ records : List (List (String × Json)),
        collect_fieldnames records =
          pyDedup ((records.map (fun r => r.map Prod.fst)).flatten))
    ∧ (∀ records : List (List (String × Json)), (collect_fieldnames records).Nodup)
    ∧ (∀ records : List (List (String × Json)), records ≠ [] →
        export_to_csv records =
          csvLine (collect_fieldnames records) ++
            String.join (records.map (fun rec =>
              csvLine ((collect_fieldnames records).map (csvCell rec))))) := by
  refine ⟨rfl, rfl, collect_fieldnames_eq, ?_, ?_⟩
  · intro records
    rw [collect_fieldnames_eq]
    exact pyDedup_nodup _
  · intro records hne
    cases records with
    | nil => exact absurd rfl hne
    | cons r rest => rfl

/-- Witness for C9 at a singleton record set. -/
theorem export_to_csv_spec_witness :
    export_to_csv [[("a", Json.str "1")]] =
      csvLine (collect_fieldnames [[("a", Json.str "1")]]) ++
        String.join ([[("a", Json.str "1")]].map (fun rec =>
          csvLine ((collect_fieldnames [[("a", Json.str "1")]]).map (csvCell rec)))) :=
  export_to_csv_spec.2.2.2.2 [[("a", Json.str "1")]] (by simp)

/-- C10: with `home_types` absent or empty no filtering occurs; with a
non-empty `home_types` a record is kept exactly when some home type,
lowercased, is a substring of the record's unit-type descriptor coerced
to a lowercase string. -/
theorem home_type_filter_spec :
    (∀ records : List (List (String × Json)), filter_by_home_types records none = records)
    ∧ (∀ records : List (List (String × Json)),
        filter_by_home_types records (some []) = records)
    ∧ ∀ (records : List (List (String × Json))) (hts : List String), hts ≠ [] →
        ∀ r : List (String × Json),
          r ∈ filter_by_home_types records (some hts) ↔
            (r ∈ records ∧ ∃ ht ∈ hts,
              (pyLower ht).data <:+:
                (pyLower (pyStr (pyOr ((r.lookup "unitTypes").getD Json.null)
                  (Json.str "")))).data) := by
  refine ⟨?_, ?_, ?_⟩
  · intro records
    cases records with
    | nil => rfl
    | cons a l => rfl
  · intro records
    cases records with
    | nil => rfl
    | cons a l => rfl
  · intro records hts hne r
    cases records with
    | nil => simp [filter_by_home_types]
    | cons a l =>
      have hne2 : hts.isEmpty = false := by
        cases hts with
        | nil => exact absurd rfl hne
        | cons x xs => rfl
      have hunf : filter_by_home_types (a :: l) (some hts) =
          (a :: l).filter (fun rec =>
            (hts.map pyLower).any (fun ht =>
              substrB ht (pyLower (pyStr (pyOr ((rec.lookup "unitTypes").getD Json.null)
                (Json.str "")))))) := by
        simp [filter_by_home_types, hne2]
      rw [hunf, List.mem_filter]
      constructor
      · rintro ⟨hmem, hp⟩
        simp only [List.any_eq_true, List.mem_map] at hp
        obtain ⟨x, ⟨ht, hht, rfl⟩, hsub⟩ := hp
        exact ⟨hmem, ht, hht, (substrB_iff _ _).mp hsub⟩
      · rintro ⟨hmem, ht, hht, hinf⟩
        refine ⟨hmem, ?_⟩
        simp only [List.any_eq_true, List.mem_map]
        exact ⟨pyLower ht, ⟨ht, hht, rfl⟩, (substrB_iff _ _).mpr hinf⟩

/-- Witness for C10: `"APART"` keeps the `"Apartment"` record. -/
theorem home_type_filter_witness :
    exUnitRec ∈ filter_by_home_types [exUnitRec] (some ["APART"]) := by
  have H := home_type_filter_spec.2.2 [exUnitRec] ["APART"] (by simp) exUnitRec
  exact H.mpr ⟨by simp, "APART", by simp, (substrB_iff _ _).mp (by decide)⟩

end ZScrape
